import Mathlib

/-!
# RealEstateAggregator — verified model of the scraping core

A shallow embedding of the parts of the `scraper` package that the
specification talks about: the string parsers of the source adapters,
the offer-type normalizer, the policy filter (`core/filters.py`), the
store gateway upsert (`core/database.py`), the job runner aggregation
(`core/runner.py`), and the shared HTTP retry wrapper
(`core/http_utils.py`).  Machine integers are modelled as `Nat`/`Int`
(no overflow is possible in the quantities involved), Python `None`
as `Option`, Python dictionaries as structures of `Option` fields with
the `.get` defaults applied at the use sites, and database state as
explicit lists of rows.
-/

/- ## Python string primitives -/

/- ## Python string primitives -/

/-- Python `str.lower()` restricted to the character repertoire this
repository manipulates: ASCII letters and the upper-case Czech letters
with diacritics.  All other characters are unchanged. -/
def pyLowerChar (c : Char) : Char :=
  if 'A' ≤ c && c ≤ 'Z' then Char.ofNat (c.toNat + 32)
  else match c with
    | 'Á' => 'á' | 'Č' => 'č' | 'Ď' => 'ď' | 'É' => 'é' | 'Ě' => 'ě'
    | 'Í' => 'í' | 'Ň' => 'ň' | 'Ó' => 'ó' | 'Ř' => 'ř' | 'Š' => 'š'
    | 'Ť' => 'ť' | 'Ú' => 'ú' | 'Ů' => 'ů' | 'Ý' => 'ý' | 'Ž' => 'ž'
    | _ => c

/-- Python `str.lower()` applied character-wise. -/
def pyLower (s : String) : String := String.mk (s.data.map pyLowerChar)

/-- Contiguous-sublist test on character lists. -/
def charsContain (needle : List Char) : List Char → Bool
  | [] => needle.isEmpty
  | c :: cs => needle.isPrefixOf (c :: cs) || charsContain needle cs

/-- Python `needle in hay` for strings (substring containment). -/
def strContains (hay needle : String) : Bool := charsContain needle.data hay.data

/-- Python `str.isdigit()`.  Besides the ASCII digits it also accepts
the superscript digits (`'²'` etc.); on those `int()` would raise, a
case none of the repository's inputs reaches — the numeric conversion
below is therefore only applied to ASCII digit runs. -/
def pyIsDigit (c : Char) : Bool := c.isDigit || c == '¹' || c == '²' || c == '³'

/-- Numeric value of a run of ASCII digit characters (Python `int`). -/
def natOfDigits (cs : List Char) : Nat := cs.foldl (fun a c => a * 10 + (c.toNat - 48)) 0

/-- Python regex `\s` for the whitespace characters occurring in this
repository's inputs. -/
def isPySpace (c : Char) : Bool :=
  c == ' ' || c == '\t' || c == '\n' || c == '\r' || c == '\x0b' || c == '\x0c'

/-- First maximal run of decimal digits in a character list — the
match of Python `re.search(r"(\d+)", text)`.  `\d` is the Unicode
decimal-digit class, which on this repository's inputs is exactly the
ASCII digits (the superscript `'²'` is *not* in class `\d`). -/
def findFirstDigitRun : List Char → Option (List Char)
  | [] => none
  | c :: cs =>
    if c.isDigit then some (c :: cs.takeWhile Char.isDigit)
    else findFirstDigitRun cs

/-- Match of Python `re.search(r"(\d[\d\s]*)", text)`: a decimal digit
followed by the longest run of digits and whitespace. -/
def findFirstDigitSpaceRun : List Char → Option (List Char)
  | [] => none
  | c :: cs =>
    if c.isDigit then some (c :: cs.takeWhile (fun x => x.isDigit || isPySpace x))
    else findFirstDigitSpaceRun cs

/- ## Adapter parsers (`prodejmeto_scraper.py`, `znojmoreality_scraper.py`) -/

/- ## Adapter parsers (`prodejmeto_scraper.py`, `znojmoreality_scraper.py`) -/

/-- Embeds `ProdejmeToScraper._parse_price`: keep every character for which
`str.isdigit()` holds, `int` of the result, `None` when no digit. -/
def prodejmeto_parse_price (text : String) : Option Nat :=
  let digits := text.data.filter pyIsDigit
  if digits.isEmpty then none else some (natOfDigits digits)

/-- Embeds `ProdejmeToScraper._parse_area`: `re.search(r"(\d+)", text)`,
`int` of the first group, `None` when there is no match. -/
def prodejmeto_parse_area (text : String) : Option Nat :=
  (findFirstDigitRun text.data).map natOfDigits

/-- Embeds `ZnojmoRealityScraper._parse_price`: `re.sub(r"[^0-9]", "", text)`
then `int`, `None` when the digit string is empty. -/
def znojmoreality_parse_price (text : String) : Option Nat :=
  let digits := text.data.filter Char.isDigit
  if digits.isEmpty then none else some (natOfDigits digits)

/-- Embeds `ZnojmoRealityScraper._parse_area`: `re.search(r"(\d[\d\s]*)", text)`,
strip the non-digits from the matched group, `int` of the rest. -/
def znojmoreality_parse_area (text : String) : Option Nat :=
  match findFirstDigitSpaceRun text.data with
  | some run =>
    let digits := run.filter Char.isDigit
    if digits.isEmpty then none else some (natOfDigits digits)
  | none => none

/- ## Offer-type normalization
(`ProdejmeToScraper._normalize_offer_type` and the gateway enum maps in
`database.py`) -/

/- ## Offer- and property-type normalization (`prodejmeto_scraper.py`, `database.py`) -/

/-- Embeds `ProdejmeToScraper._normalize_offer_type`: empty (falsy) input gives
"Prodej"; an input whose `lower()` contains the substring "pronaj" gives
"Pronájem"; anything else gives "Prodej". -/
def normalize_offer_type (value : String) : String :=
  if value = "" then "Prodej"
  else if strContains (pyLower value) "pronaj" then "Pronájem"
  else "Prodej"

/-- Embeds `offer_type_map.get(offer_type, "Sale")` of `upsert_listing`:
the dictionary maps "Prodej" to "Sale" and "Pronájem" to "Rent",
defaulting to "Sale". -/
def offer_type_map (s : String) : String :=
  if s = "Prodej" then "Sale"
  else if s = "Pronájem" then "Rent"
  else "Sale"

/-- Embeds `property_type_map.get(property_type, "Other")` of `upsert_listing`. -/
def property_type_map (s : String) : String :=
  if s = "Dům" then "House"
  else if s = "Byt" then "Apartment"
  else if s = "Pozemek" then "Land"
  else if s = "Chata" then "Cottage"
  else if s = "Komerční" then "Commercial"
  else if s = "Průmyslový" then "Industrial"
  else if s = "Garáž" then "Garage"
  else if s = "Ostatní" then "Other"
  else "Other"

/- ## Theorems: parser round-trip laws (C8) -/

/- ## Policy filter (`core/filters.py`) -/

/-- One per-property-type stanza of `search_filters`
(`sf.get("houses", {})` etc.); absent keys are `none`. -/
structure StanzaConfig where
  enabled : Option Bool := none
  offer_types : Option (List String) := none
  max_price : Option Int := none
  min_price : Option Int := none
deriving Repr, DecidableEq

/-- The `search_filters` section of the configuration document. -/
structure SearchFilters where
  target_districts : List String := []
  houses : StanzaConfig := {}
  land : StanzaConfig := {}
  apartments : StanzaConfig := {}
  commercial : StanzaConfig := {}
deriving Repr, DecidableEq

/-- The `quality_filters` section of the configuration document;
the boolean keys default to `False` at the use sites via `.get`. -/
structure QualityFilters where
  require_photos : Bool := false
  min_photos : Option Nat := none
  require_price : Bool := false
  require_location : Bool := false
  require_description : Bool := false
  min_description_length : Option Nat := none
deriving Repr, DecidableEq

/-- The whole filter configuration held by `FilterManager`. -/
structure FilterConfig where
  search_filters : SearchFilters := {}
  quality_filters : QualityFilters := {}
deriving Repr, DecidableEq

/-- Embeds `FilterManager._get_default_config`: the configuration used when
no `settings.yaml` document is present. -/
def get_default_config : FilterConfig :=
  { search_filters :=
      { target_districts := ["Znojmo"]
        houses := { enabled := some true, max_price := some 7500000 }
        land := { enabled := some true, max_price := some 2000000 } }
    quality_filters :=
      { require_photos := true
        require_price := true
        require_location := true } }

/-- The candidate-record dictionary (`listing_data`): optional fields
with the Python `.get` defaults applied where the code reads them. -/
structure ListingData where
  source_code : String
  external_id : Option String := none
  url : Option String := none
  title : Option String := none
  description : Option String := none
  property_type : Option String := none
  offer_type : Option String := none
  price : Option Int := none
  location_text : Option String := none
  area_built_up : Option Int := none
  area_land : Option Int := none
  photos : Option (List String) := none
  disposition : Option String := none
  rooms : Option Nat := none
  condition : Option String := none
  construction_type : Option String := none
deriving Repr, DecidableEq

/-- Python truthiness of an optional number (`None` and `0` are falsy). -/
def truthyInt : Option Int → Bool
  | none => false
  | some n => !(n == 0)

/-- Embeds `FilterManager._check_quality_filters`: the four quality checks in
source order, returning `(False, reason)` on the first miss. -/
def check_quality_filters (qf : QualityFilters) (d : ListingData) : Bool × Option String :=
  if qf.require_photos &&
     (let photos := d.photos.getD []
      photos.isEmpty || photos.length < qf.min_photos.getD 1) then
    (false, some "Insufficient photos")
  else if qf.require_price && !truthyInt d.price then
    (false, some "Missing price")
  else if qf.require_location && (d.location_text.getD "") == "" then
    (false, some "Missing location")
  else if qf.require_description &&
          (let desc := d.description.getD ""
           desc == "" || desc.length < qf.min_description_length.getD 20) then
    (false, some "Description too short")
  else (true, none)

/-- The district gate of `_check_search_filters`: with a non-empty
`target_districts` list the lower-cased `location_text` must contain
some lower-cased district name. -/
def district_reject (sf : SearchFilters) (location_text : String) : Bool :=
  !sf.target_districts.isEmpty &&
  !(sf.target_districts.any fun district => strContains location_text (pyLower district))

/-- The offer-type gate of one stanza:
`if filter.get("offer_types") and offer_type not in filter["offer_types"]`
(an absent or empty list is falsy and skips the check). -/
def offer_reject (st : StanzaConfig) (offer_type : String) : Bool :=
  match st.offer_types with
  | some l => !l.isEmpty && !(l.contains offer_type)
  | none => false

/-- The per-property-type block of `_check_search_filters`, repeated in
the source once for each of houses / land / apartments / commercial:
disabled stanza rejects, the offer-type gate, then — only for a truthy
price — the `max_price` and `min_price` band gates (each skipped when
the bound itself is falsy). -/
def check_type_stanza (label : String) (st : StanzaConfig) (offer_type : String)
    (price : Option Int) : Bool × Option String :=
  if st.enabled.getD true = false then
    (false, some (label ++ " disabled"))
  else if offer_reject st offer_type then
    (false, some ("Offer type " ++ offer_type ++ " not in " ++ label ++ " filter"))
  else if truthyInt price then
    match price with
    | some p =>
      if (match st.max_price with | some m => !(m == 0) && decide (m < p) | none => false) then
        (false, some "Price exceeds max")
      else if (match st.min_price with | some m => !(m == 0) && decide (p < m) | none => false) then
        (false, some "Price below min")
      else (true, none)
    | none => (true, none)
  else (true, none)

/-- Embeds `FilterManager._check_search_filters`: district gate, then the
stanza matching the record's property type (records of other property
types pass unchecked). -/
def check_search_filters (sf : SearchFilters) (d : ListingData) : Bool × Option String :=
  let property_type := d.property_type.getD "Ostatní"
  let offer_type := d.offer_type.getD "Sale"
  let price := d.price
  let location_text := pyLower (d.location_text.getD "")
  if district_reject sf location_text then
    (false, some ("District not in target list: " ++ location_text))
  else if property_type == "House" then check_type_stanza "Houses" sf.houses offer_type price
  else if property_type == "Land" then check_type_stanza "Land" sf.land offer_type price
  else if property_type == "Apartment" then check_type_stanza "Apartments" sf.apartments offer_type price
  else if property_type == "Commercial" then check_type_stanza "Commercial" sf.commercial offer_type price
  else (true, none)

/-- Embeds `FilterManager.should_include_listing`: quality checks first,
then the search checks. -/
def should_include_listing (cfg : FilterConfig) (d : ListingData) : Bool × Option String :=
  let quality := check_quality_filters cfg.quality_filters d
  if quality.1 = false then quality
  else
    let search := check_search_filters cfg.search_filters d
    if search.1 = false then search
    else (true, none)

/- ## Theorems: default configuration (C5) -/

/- ## Derived views of the filter configuration -/

/-- Which stanza of `search_filters` applies to a canonical property
type, mirroring the branch structure of `_check_search_filters`. -/
def stanza_for (sf : SearchFilters) (pt : String) : Option StanzaConfig :=
  if pt = "House" then some sf.houses
  else if pt = "Land" then some sf.land
  else if pt = "Apartment" then some sf.apartments
  else if pt = "Commercial" then some sf.commercial
  else none

/-- A stanza with its `max_price` and `min_price` removed. -/
def erase_stanza_bounds (st : StanzaConfig) : StanzaConfig :=
  { st with max_price := none, min_price := none }

/-- The search filters with every stanza's price bounds removed. -/
def erase_price_bounds (sf : SearchFilters) : SearchFilters :=
  { sf with houses := erase_stanza_bounds sf.houses
            land := erase_stanza_bounds sf.land
            apartments := erase_stanza_bounds sf.apartments
            commercial := erase_stanza_bounds sf.commercial }

/- ## Store gateway (`core/database.py`) -/

/-- A row of `re_realestate.sources`. -/
structure SourceRow where
  id : Nat
  code : String
  name : String
  base_url : String := ""
  is_active : Bool := true
deriving Repr, DecidableEq

/-- A row of `re_realestate.listings` (the columns `upsert_listing`
reads or writes).  Identifiers and timestamps are `Nat`. -/
structure ListingRow where
  id : Nat
  source_id : Nat
  source_code : String
  source_name : String
  external_id : Option String
  url : String
  title : String
  description : String
  property_type : String
  offer_type : String
  price : Option Int
  location_text : String
  area_built_up : Option Int
  area_land : Option Int
  first_seen_at : Nat
  last_seen_at : Nat
  is_active : Bool
deriving Repr, DecidableEq

/-- A row of `re_realestate.listing_photos`. -/
structure PhotoRow where
  id : Nat
  listing_id : Nat
  original_url : String
  order_index : Nat
  created_at : Nat
deriving Repr, DecidableEq

/-- The database state the gateway manipulates. -/
structure DBState where
  sources : List SourceRow
  listings : List ListingRow
  photos : List PhotoRow
deriving Repr, DecidableEq

/-- Embeds `DatabaseManager.get_source_by_code`. -/
def get_source_by_code (sources : List SourceRow) (code : String) : Option SourceRow :=
  sources.find? (fun s => s.code == code)

/-- The `ON CONFLICT (source_id, external_id)` key: two non-NULL
`external_id` values that are equal, under the same source (SQL `NULL`
never conflicts with anything). -/
def matchesKey (sid : Nat) (eid : Option String) (r : ListingRow) : Bool :=
  r.source_id == sid &&
  (match r.external_id, eid with
   | some a, some b => a == b
   | _, _ => false)

/-- Embeds `DatabaseManager._upsert_photos`: inside one transaction, delete all
photos of the listing, then insert the new set in order, capped at 20
(`photo_urls[:20]`), with `order_index` equal to the enumeration index.
Fresh `uuid4` photo ids are modelled as `photoIdBase + index`. -/
def upsert_photos (photos : List PhotoRow) (listing_id : Nat) (photo_urls : List String)
    (photoIdBase now : Nat) : List PhotoRow :=
  let kept := photos.filter (fun p => !(p.listing_id == listing_id))
  let inserted := (photo_urls.take 20).enum.map (fun iu =>
    { id := photoIdBase + iu.1, listing_id := listing_id, original_url := iu.2,
      order_index := iu.1, created_at := now : PhotoRow })
  kept ++ inserted

/-- The row the `INSERT` clause of `upsert_listing` supplies: the
gateway-truncated field values, `first_seen_at = last_seen_at = now`,
`is_active = true`. -/
def insertRow (d : ListingData) (src : SourceRow) (newId now : Nat) : ListingRow :=
  { id := newId
    source_id := src.id
    source_code := d.source_code
    source_name := src.name
    external_id := d.external_id
    url := d.url.getD ""
    title := (d.title.getD "").take 200
    description := (d.description.getD "").take 5000
    property_type := property_type_map (d.property_type.getD "Ostatní")
    offer_type := offer_type_map (d.offer_type.getD "Prodej")
    price := d.price
    location_text := (d.location_text.getD "").take 200
    area_built_up := d.area_built_up
    area_land := d.area_land
    first_seen_at := now
    last_seen_at := now
    is_active := true }

/-- The `DO UPDATE SET` clause of `upsert_listing`: every mutable field
takes the `EXCLUDED` (new) value, `last_seen_at = now`,
`is_active = true`; identity, `source_*` and `first_seen_at` are kept. -/
def updateRow (d : ListingData) (now : Nat) (r : ListingRow) : ListingRow :=
  { r with
    url := d.url.getD ""
    title := (d.title.getD "").take 200
    description := (d.description.getD "").take 5000
    property_type := property_type_map (d.property_type.getD "Ostatní")
    offer_type := offer_type_map (d.offer_type.getD "Prodej")
    price := d.price
    location_text := (d.location_text.getD "").take 200
    area_built_up := d.area_built_up
    area_land := d.area_land
    last_seen_at := now
    is_active := true }

/-- Embeds `DatabaseManager.upsert_listing`: filter gate, source lookup, one
atomic `INSERT … ON CONFLICT (source_id, external_id) DO UPDATE …
RETURNING id` statement, then — only when the record carries a
non-empty photo list — the photo synchronization.  `now` models
`datetime.utcnow()`, `newId` the fresh `uuid4`, `photoIdBase` the fresh
photo uuids.  Returns the new state and the returned listing id
(`none` when the filter excluded the record); a missing source row is
the `ValueError` the code raises. -/
def upsert_listing (cfg : FilterConfig) (db : DBState) (d : ListingData)
    (now newId photoIdBase : Nat) : Except String (DBState × Option Nat) :=
  let should_include := should_include_listing cfg d
  if should_include.1 = false then .ok (db, none)
  else
    match get_source_by_code db.sources d.source_code with
    | none => .error ("Source " ++ d.source_code ++ " not found in database")
    | some src =>
      let conflict := db.listings.find? (matchesKey src.id d.external_id)
      let (listings', final_listing_id) :=
        match conflict with
        | some r0 =>
          (db.listings.map (fun r =>
            if matchesKey src.id d.external_id r then updateRow d now r else r), r0.id)
        | none => (db.listings ++ [insertRow d src newId now], newId)
      let photos' :=
        match d.photos with
        | some (u :: us) => upsert_photos db.photos final_listing_id (u :: us) photoIdBase now
        | _ => db.photos
      .ok ({ db with listings := listings', photos := photos' }, some final_listing_id)

/- ## Theorems: the atomic upsert (C1, C2) -/

/- ## Concrete fixtures for the gateway theorems -/

/-- A source-catalog row for concrete runs. -/
def demo_source : SourceRow := { id := 1, code := "PRODEJMETO", name := "Prodejme.to" }

/-- An empty database holding only the source catalog. -/
def demo_db : DBState := { sources := [demo_source], listings := [], photos := [] }

/-- First concrete observation of the pair ("PRODEJMETO", "X2"). -/
def demo_obs1 : ListingData :=
  { source_code := "PRODEJMETO"
    external_id := some "X2"
    title := some "Dům 4+kk"
    price := some 3500000 }

/-- Second observation of the same pair with a new price. -/
def demo_obs2 : ListingData :=
  { source_code := "PRODEJMETO"
    external_id := some "X2"
    title := some "Dům 4+kk"
    price := some 3400000 }

/-- A database already holding a listing row for the natural key
("REMAX", "X") together with one stored photo of that listing. -/
def demo_db_with_photo : DBState :=
  { sources := [{ id := 1, code := "REMAX", name := "Remax" }]
    listings := [{ id := 7
                   source_id := 1
                   source_code := "REMAX"
                   source_name := "Remax"
                   external_id := some "X"
                   url := ""
                   title := ""
                   description := ""
                   property_type := "Other"
                   offer_type := "Sale"
                   price := none
                   location_text := ""
                   area_built_up := none
                   area_land := none
                   first_seen_at := 1
                   last_seen_at := 1
                   is_active := true }]
    photos := [{ id := 99
                 listing_id := 7
                 original_url := "old.jpg"
                 order_index := 0
                 created_at := 1 }] }

/-- An observation of a fresh listing carrying three photos. -/
def demo_photo_obs : ListingData :=
  { source_code := "PRODEJMETO"
    external_id := some "X3"
    photos := some ["a", "b", "c"] }

/-- A re-observation of the stored listing ("REMAX", "X") carrying no
photo list at all. -/
def demo_nophoto_obs : ListingData :=
  { source_code := "REMAX"
    external_id := some "X" }

/- ## HTTP retry wrapper (`core/http_utils.py`) -/

/-- The httpx exception taxonomy the wrapper can observe.  An
`HTTPStatusError` carries the response's status code; `OtherError`
stands for any exception outside the httpx hierarchy. -/
inductive HttpxError where
  | HTTPStatusError (status : Nat)
  | ConnectError
  | TimeoutException
  | RemoteProtocolError
  | OtherError (name : String)
deriving Repr, DecidableEq

/-- The `retry_if_exception_type` predicate of `http_retry` as the code
builds it: it matches the four listed *exception classes* — every
`HTTPStatusError` matches, whatever the status code. -/
def retry_on_exception : HttpxError → Bool
  | .HTTPStatusError _ => true
  | .ConnectError => true
  | .TimeoutException => true
  | .RemoteProtocolError => true
  | .OtherError _ => false

/-- tenacity `wait_exponential(multiplier=1, min=2, max=10)`: after the
`n`-th failed attempt the wait is `multiplier * 2^n` clamped into
`[mn, mx]`. -/
def wait_exponential (multiplier mn mx n : Nat) : Nat :=
  max mn (min (multiplier * 2 ^ n) mx)

/-- The retry loop of the decorated call: `f n` is the outcome of the
`n`-th attempt (attempts are numbered from 1); a retryable failure is
retried while attempts remain, any other outcome is final
(`reraise=True` rethrows the last error).  Returns the final outcome
and the number of attempts made. -/
def http_retry_aux (f : Nat → Except HttpxError α) :
    Nat → Nat → Except HttpxError α × Nat
  | attempt, 0 =>
    match f attempt with
    | .ok a => (.ok a, attempt)
    | .error e => (.error e, attempt)
  | attempt, r + 1 =>
    match f attempt with
    | .ok a => (.ok a, attempt)
    | .error e =>
      if retry_on_exception e then http_retry_aux f (attempt + 1) r
      else (.error e, attempt)

/-- A call wrapped by `http_retry` (`stop_after_attempt(3)`): first
attempt numbered 1, at most two retries after it. -/
def http_retry_call (f : Nat → Except HttpxError α) : Except HttpxError α × Nat :=
  http_retry_aux f 1 2

/- ## Job runner (`core/runner.py`) -/

/- ## Job runner (`core/runner.py`) -/

/-- The result-aggregation loop over `asyncio.gather(…,
return_exceptions=True)`: an adapter outcome is either its saved-count
or the exception it raised.  Accumulates the total of the successful
counts and, in order, the names of the adapters whose run raised (the
per-adapter error log lines). -/
def scrape_loop (results : List (String × Except String Nat)) : Nat × List String :=
  results.foldl
    (fun acc nr =>
      match nr.2 with
      | .error _ => (acc.1, acc.2 ++ [nr.1])
      | .ok n => (acc.1 + n, acc.2))
    (0, [])

/-- The final job-record update of `run_scrape_job`. -/
structure JobFinal where
  status : String
  progress : Option Nat
  listings_found : Option Nat
  error_message : Option String
deriving Repr, DecidableEq

/-- Embeds `run_scrape_job` after adapter fan-out: the whole body runs under
one `try`; `body` is either the gathered per-adapter outcomes or the
message of an exception the runner itself raised.  Yields the final job
update together with the list of logged per-adapter failures.  With no
scheduled adapter the code takes its "No scrapers scheduled" branch
(Succeeded, no count). -/
def run_scrape_job (body : Except String (List (String × Except String Nat))) :
    JobFinal × List String :=
  match body with
  | .error e =>
    ({ status := "Failed", progress := none, listings_found := none,
       error_message := some e }, [])
  | .ok results =>
    match results with
    | [] =>
      ({ status := "Succeeded", progress := some 100, listings_found := none,
         error_message := some "No scrapers scheduled" }, [])
    | _ =>
      let totals := scrape_loop results
      ({ status := "Succeeded", progress := some 100, listings_found := some totals.1,
         error_message := none }, totals.2)

/- ## Theorems: retry classification (C3) -/

/- ## Field enrichment on ingest (spec-modelled) -/

/-- Modelled from the spec: `_enrich_listing_fields` — the store
gateway's ingest enrichment — is exercised by
`scraper/tests/test_enrichment.py` ("Tests for _enrich_listing_fields
in database.py") but its body, and its call site inside
`upsert_listing`, are not present in the excerpted `database.py`
revision.  This match step models the regex `\d+\+(?:kk|1)` (applied
case-insensitively, result upper-cased) at one position of the
lower-cased text: a maximal digit run, a plus sign, then "kk" or "1";
it also yields the numeric prefix. -/
def matchDispAt (cs : List Char) : Option (String × Nat) :=
  let ds := cs.takeWhile Char.isDigit
  let rest := cs.drop ds.length
  if ds.isEmpty then none
  else if rest.take 3 == ['+', 'k', 'k'] then
    some (String.mk (ds ++ ['+', 'K', 'K']), natOfDigits ds)
  else if rest.take 2 == ['+', '1'] then
    some (String.mk (ds ++ ['+', '1']), natOfDigits ds)
  else none

/-- Modelled from the spec: the leftmost match of the disposition
regex, like `re.search`. -/
def find_disposition : List Char → Option (String × Nat)
  | [] => none
  | c :: cs =>
    match matchDispAt (c :: cs) with
    | some r => some r
    | none => find_disposition cs

/-- The numeric prefix of a string (`rooms` is the numeric prefix of
the disposition). -/
def num_prefix_nat (s : String) : Option Nat :=
  let ds := s.data.takeWhile Char.isDigit
  if ds.isEmpty then none else some (natOfDigits ds)

/-- Modelled from the spec: condition keyword detection over the
lower-cased title + description, yielding a value of
{Novostavba, Po rekonstrukci, Před rekonstrukcí, Dobrý stav}; the
branch order reproduces the repository's enrichment tests. -/
def detect_condition (t : String) : Option String :=
  if strContains t "novostav" then some "Novostavba"
  else if strContains t "k rekonstrukci" || strContains t "vyžaduje rekonstrukc"
          || strContains t "před rekonstrukc" then some "Před rekonstrukcí"
  else if strContains t "rekonstruk" then some "Po rekonstrukci"
  else if strContains t "dobrý stav" then some "Dobrý stav"
  else none

/-- Modelled from the spec: construction-type keyword detection,
yielding a value of {Cihla, Panel, Dřevo}. -/
def detect_construction (t : String) : Option String :=
  if strContains t "cihl" then some "Cihla"
  else if strContains t "panel" then some "Panel"
  else if strContains t "dřevo" then some "Dřevo"
  else none

/-- Modelled from the spec: `_enrich_listing_fields` inspects
title + description and fills `disposition`, `rooms`, `condition` and
`construction_type` when unset, never overwriting a present value. -/
def enrich_listing_fields (d : ListingData) : ListingData :=
  let text := pyLower (d.title.getD "" ++ " " ++ d.description.getD "")
  let found := find_disposition text.data
  let disposition' :=
    match d.disposition with
    | some v => some v
    | none => found.map Prod.fst
  let rooms' :=
    match d.rooms with
    | some r => some r
    | none =>
      match disposition' with
      | some v => num_prefix_nat v
      | none => none
  let condition' :=
    match d.condition with
    | some v => some v
    | none => detect_condition text
  let construction' :=
    match d.construction_type with
    | some v => some v
    | none => detect_construction text
  { d with disposition := disposition'
           rooms := rooms'
           condition := condition'
           construction_type := construction' }

/-- Recognizer for the language of the disposition regex
`\d+\+(?:kk|1)` after upper-casing: a non-empty digit run followed by
"+KK" or "+1". -/
def disposition_shape (v : String) : Bool :=
  let ds := v.data.takeWhile Char.isDigit
  !ds.isEmpty && (v.data.drop ds.length == ['+', 'K', 'K'] || v.data.drop ds.length == ['+', '1'])

/-- The inputs of the repository's enrichment tests
(`scraper/tests/test_enrichment.py`). -/
def enrich_case_1 : ListingData :=
  { source_code := "T"
    title := some "Prodej rodinného domu 4+kk, 153m2 - Znojmo"
    description := some "" }

/-- Test input: condition and construction type from the description. -/
def enrich_case_2 : ListingData :=
  { source_code := "T"
    title := some "Prodej domu"
    description := some "Dům je po kompletní rekonstrukci, cihlová stavba." }

/-- Test input: new build with a disposition in the title. -/
def enrich_case_3 : ListingData :=
  { source_code := "T"
    title := some "Prodej novostavby 3+kk Brno"
    description := some "" }

/-- Test input: adapter-provided fields that must not be overwritten. -/
def enrich_case_4 : ListingData :=
  { source_code := "T"
    title := some "Byt 3+1"
    description := some "Po rekonstrukci"
    disposition := some "5+1"
    condition := some "Dobrý stav" }

/-- Test input: pre-renovation wording and wooden construction. -/
def enrich_case_5 : ListingData :=
  { source_code := "T"
    title := some "Dům k rekonstrukci"
    description := some "Nemovitost vyžaduje rekonstrukci, dřevostavba." }

/-- Test input: panel construction. -/
def enrich_case_6 : ListingData :=
  { source_code := "T"
    title := some "Prodej bytu 3+1"
    description := some "Panelový dům v klidné lokalitě." }

/-- Test input: a land listing with no disposition to find. -/
def enrich_case_7 : ListingData :=
  { source_code := "T"
    title := some "Prodej stavebního pozemku 467 m²"
    description := some "Pěkný pozemek." }

/- ## Theorems: parser round-trip laws (C8) -/

/-- C8: the adapters' price and area parsers satisfy the literal laws of
the spec: `parse_price "3 500 000 Kč" = 3500000`, `parse_price "" = None`,
`parse_price "cena dohodou" = None`, `parse_area "161 m²" = 161` and
`parse_area "161 m² / 750 m²" = 161` (only the first numeric token is
taken), for both the ProdejmeTo and the ZnojmoReality adapter. -/
theorem parse_price_area_laws :
    prodejmeto_parse_price "3 500 000 Kč" = some 3500000 ∧
    prodejmeto_parse_price "" = none ∧
    prodejmeto_parse_price "cena dohodou" = none ∧
    prodejmeto_parse_area "161 m²" = some 161 ∧
    prodejmeto_parse_area "161 m² / 750 m²" = some 161 ∧
    znojmoreality_parse_price "3 500 000 Kč" = some 3500000 ∧
    znojmoreality_parse_price "" = none ∧
    znojmoreality_parse_price "cena dohodou" = none ∧
    znojmoreality_parse_area "161 m²" = some 161 ∧
    znojmoreality_parse_area "161 m² / 750 m²" = some 161 := by
  refine ⟨?_, ?_, ?_, ?_, ?_, ?_, ?_, ?_, ?_, ?_⟩ <;> decide

/- ## Theorems: offer-type normalization (C7) -/

/- ## Theorems: offer-type normalization (C7) -/

/-- C7 counterexample: the composition of the adapter-level offer-type
normalizer with the gateway's enum map sends the Czech "pronájem" (with
the diacritic) to "Sale", not to "Rent" as the claim states: the check
`"pronaj" in value.lower()` fails because `'á' ≠ 'a'`. -/
theorem normalize_pronajem_diacritic_is_sale :
    offer_type_map (normalize_offer_type "pronájem") = "Sale" ∧
    offer_type_map (normalize_offer_type "pronájem") ≠ "Rent" := by
  constructor
  · decide
  · decide

/-- C7 amended: the composed normalizer sends exactly the non-empty
inputs whose Python lowercase contains the ASCII substring "pronaj"
(such as "Pronajem" or "pronajem") to "Rent"; every other input — the
diacritic form "pronájem" included — defaults to "Sale". -/
theorem normalize_offer_type_composed (value : String) :
    offer_type_map (normalize_offer_type value) =
      (if value ≠ "" ∧ strContains (pyLower value) "pronaj" = true
       then "Rent" else "Sale") ∧
    offer_type_map (normalize_offer_type "Pronajem") = "Rent" := by
  constructor
  · by_cases hv : value = ""
    · subst hv; decide
    · simp only [normalize_offer_type, if_neg hv]
      by_cases hc : strContains (pyLower value) "pronaj" = true
      · simp [hc, offer_type_map, hv]
      · simp [hc, offer_type_map, hv]
  · decide

/- ## Policy filter (`core/filters.py`) -/

/- ## Theorems: default configuration (C5) -/

/-- C5 counterexample: the claim says the default configuration admits
houses with price up to 8,500,000, but a house record priced 8,000,000
that satisfies every quality requirement and lies in district "Znojmo"
is rejected: `_get_default_config` caps houses at 7,500,000. -/
theorem default_config_rejects_house_8m :
    (check_quality_filters get_default_config.quality_filters
      { source_code := "X", property_type := some "House", price := some 8000000,
        location_text := some "Znojmo, okres Znojmo", photos := some ["u"] }).1 = true ∧
    district_reject get_default_config.search_filters
      (pyLower "Znojmo, okres Znojmo") = false ∧
    should_include_listing get_default_config
      { source_code := "X", property_type := some "House", price := some 8000000,
        location_text := some "Znojmo, okres Znojmo", photos := some ["u"] }
      = (false, some "Price exceeds max") := by
  refine ⟨?_, ?_, ?_⟩ <;> decide

/-- C5 amended: the policy filter's default configuration (used when no
configuration document is present) admits houses with price ≤ 7,500,000
and land with price ≤ 2,000,000, restricted to district "Znojmo", with
photos, price and location all required. -/
theorem default_config_spec :
    get_default_config.search_filters.target_districts = ["Znojmo"] ∧
    get_default_config.search_filters.houses
      = { enabled := some true, max_price := some 7500000 } ∧
    get_default_config.search_filters.land
      = { enabled := some true, max_price := some 2000000 } ∧
    get_default_config.quality_filters.require_photos = true ∧
    get_default_config.quality_filters.require_price = true ∧
    get_default_config.quality_filters.require_location = true ∧
    should_include_listing get_default_config
      { source_code := "X", property_type := some "House", price := some 7500000,
        location_text := some "Znojmo", photos := some ["u"] } = (true, none) ∧
    should_include_listing get_default_config
      { source_code := "X", property_type := some "House", price := some 7500001,
        location_text := some "Znojmo", photos := some ["u"] }
      = (false, some "Price exceeds max") ∧
    should_include_listing get_default_config
      { source_code := "X", property_type := some "Land", price := some 2000000,
        location_text := some "Znojmo", photos := some ["u"] } = (true, none) ∧
    should_include_listing get_default_config
      { source_code := "X", property_type := some "Land", price := some 2000001,
        location_text := some "Znojmo", photos := some ["u"] }
      = (false, some "Price exceeds max") := by
  refine ⟨rfl, rfl, rfl, rfl, rfl, rfl, ?_, ?_, ?_, ?_⟩ <;> decide

/- ## Theorems: price band inclusivity (C9) -/

/- ## Theorems: price band inclusivity (C9) -/

/-- An enabled stanza whose offer gate passes admits a truthy price
equal to its `max_price` (the `price > max_price` comparison is strict,
so the upper bound is inclusive). -/
theorem check_type_stanza_at_max (label : String) (st : StanzaConfig) (ot : String) (m : Int)
    (hen : st.enabled.getD true = true)
    (hoff : offer_reject st ot = false)
    (hmax : st.max_price = some m)
    (hm : m ≠ 0)
    (hmin : ∀ mn, st.min_price = some mn → mn = 0 ∨ mn ≤ m) :
    check_type_stanza label st ot (some m) = (true, none) := by
  unfold check_type_stanza
  rcases hmn : st.min_price with _ | mn
  · simp [hen, hoff, hmax, truthyInt, hm]
  · rcases hmin mn hmn with h0 | hle
    · simp [hen, hoff, hmax, hmn, truthyInt, hm, h0]
    · simp [hen, hoff, hmax, hmn, truthyInt, hm, not_lt_of_ge hle]

/-- C9: a record whose property type has a configured stanza and whose
price equals that stanza's `max_price` exactly is admitted by the
policy filter — the price band is inclusive at its upper bound
(provided the record passes the quality checks, the district gate and
the stanza's enabled/offer gates, and the stanza's lower bound, when
truthy, does not exceed `max_price`). -/
theorem price_at_max_included (cfg : FilterConfig) (d : ListingData)
    (st : StanzaConfig) (m : Int)
    (hq : (check_quality_filters cfg.quality_filters d).1 = true)
    (hd : district_reject cfg.search_filters (pyLower (d.location_text.getD "")) = false)
    (hst : stanza_for cfg.search_filters (d.property_type.getD "Ostatní") = some st)
    (hen : st.enabled.getD true = true)
    (hoff : offer_reject st (d.offer_type.getD "Sale") = false)
    (hmax : st.max_price = some m)
    (hp : d.price = some m)
    (hm : m ≠ 0)
    (hmin : ∀ mn, st.min_price = some mn → mn = 0 ∨ mn ≤ m) :
    should_include_listing cfg d = (true, none) := by
  have key : ∀ label, check_type_stanza label st (d.offer_type.getD "Sale") (some m) = (true, none) :=
    fun label => check_type_stanza_at_max label st _ m hen hoff hmax hm hmin
  have hsearch : check_search_filters cfg.search_filters d = (true, none) := by
    by_cases h1 : d.property_type.getD "Ostatní" = "House"
    · have hst' : st = cfg.search_filters.houses := by
        simp [stanza_for, h1] at hst; exact hst.symm
      simp only [check_search_filters, hd]
      simp [h1, hp, ← hst', key "Houses"]
    · by_cases h2 : d.property_type.getD "Ostatní" = "Land"
      · have hst' : st = cfg.search_filters.land := by
          simp [stanza_for, h1, h2] at hst; exact hst.symm
        simp only [check_search_filters, hd]
        simp [h1, h2, hp, ← hst', key "Land"]
      · by_cases h3 : d.property_type.getD "Ostatní" = "Apartment"
        · have hst' : st = cfg.search_filters.apartments := by
            simp [stanza_for, h1, h2, h3] at hst; exact hst.symm
          simp only [check_search_filters, hd]
          simp [h1, h2, h3, hp, ← hst', key "Apartments"]
        · by_cases h4 : d.property_type.getD "Ostatní" = "Commercial"
          · have hst' : st = cfg.search_filters.commercial := by
              simp [stanza_for, h1, h2, h3, h4] at hst; exact hst.symm
            simp only [check_search_filters, hd]
            simp [h1, h2, h3, h4, hp, ← hst', key "Commercial"]
          · simp [stanza_for, h1, h2, h3, h4] at hst
  simp only [should_include_listing, hq, hsearch]
  simp

/-- C9 witness: under the default configuration a house record priced
exactly at the 7,500,000 cap, located in "Znojmo" and carrying a photo,
is admitted. -/
theorem price_at_max_included_witness :
    should_include_listing get_default_config
      { source_code := "X", property_type := some "House", price := some 7500000,
        location_text := some "Znojmo", photos := some ["u"] } = (true, none) :=
  price_at_max_included get_default_config
    { source_code := "X", property_type := some "House", price := some 7500000,
      location_text := some "Znojmo", photos := some ["u"] }
    { enabled := some true, max_price := some 7500000 } 7500000
    (by decide) (by decide) (by decide) (by decide) (by decide) (by decide)
    (by decide) (by decide) (fun mn h => Option.noConfusion h)

/- ## Theorems: falsy price skips the price bands (C10) -/

/- ## Theorems: falsy price skips the price bands (C10) -/

/-- For a falsy price the per-stanza check never consults the bounds. -/
theorem check_type_stanza_untruthy (label : String) (st : StanzaConfig) (ot : String)
    (p : Option Int) (hp : truthyInt p = false) :
    check_type_stanza label (erase_stanza_bounds st) ot p = check_type_stanza label st ot p := by
  unfold check_type_stanza erase_stanza_bounds offer_reject
  simp [hp]

/-- C10: for a record whose price is `None` or `0` the search-filter
stage skips the `min_price`/`max_price` band gates entirely — its
outcome is unchanged when every stanza's bounds are erased — and when
`require_price` is enabled the quality stage rejects such a record. -/
theorem untruthy_price_skips_price_band (cfg : FilterConfig) (d : ListingData)
    (hp : d.price = none ∨ d.price = some 0) :
    check_search_filters (erase_price_bounds cfg.search_filters) d
      = check_search_filters cfg.search_filters d ∧
    (cfg.quality_filters.require_price = true →
      (check_quality_filters cfg.quality_filters d).1 = false) := by
  have htr : truthyInt d.price = false := by
    rcases hp with h | h <;> simp [truthyInt, h]
  constructor
  · simp only [check_search_filters]
    rw [show district_reject (erase_price_bounds cfg.search_filters)
          = district_reject cfg.search_filters from rfl]
    rw [show (erase_price_bounds cfg.search_filters).houses
          = erase_stanza_bounds cfg.search_filters.houses from rfl]
    rw [show (erase_price_bounds cfg.search_filters).land
          = erase_stanza_bounds cfg.search_filters.land from rfl]
    rw [show (erase_price_bounds cfg.search_filters).apartments
          = erase_stanza_bounds cfg.search_filters.apartments from rfl]
    rw [show (erase_price_bounds cfg.search_filters).commercial
          = erase_stanza_bounds cfg.search_filters.commercial from rfl]
    rw [check_type_stanza_untruthy "Houses" cfg.search_filters.houses _ _ htr]
    rw [check_type_stanza_untruthy "Land" cfg.search_filters.land _ _ htr]
    rw [check_type_stanza_untruthy "Apartments" cfg.search_filters.apartments _ _ htr]
    rw [check_type_stanza_untruthy "Commercial" cfg.search_filters.commercial _ _ htr]
  · intro hrq
    simp only [check_quality_filters, hrq, htr]
    split <;> simp

/-- C10 witness: for a concrete priceless house record the search-stage
outcome is the same with and without the default configuration's price
bounds, and the default quality stage rejects it for its missing price. -/
theorem untruthy_price_skips_price_band_witness :
    check_search_filters (erase_price_bounds get_default_config.search_filters)
      { source_code := "X", property_type := some "House", price := none,
        location_text := some "Znojmo", photos := some ["u"] }
      = check_search_filters get_default_config.search_filters
      { source_code := "X", property_type := some "House", price := none,
        location_text := some "Znojmo", photos := some ["u"] } ∧
    (get_default_config.quality_filters.require_price = true →
      (check_quality_filters get_default_config.quality_filters
        { source_code := "X", property_type := some "House", price := none,
          location_text := some "Znojmo", photos := some ["u"] }).1 = false) :=
  untruthy_price_skips_price_band get_default_config
    { source_code := "X", property_type := some "House", price := none,
      location_text := some "Znojmo", photos := some ["u"] } (Or.inl rfl)

/- ## Store gateway (`core/database.py`) -/

/- ## Theorems: the atomic upsert (C1) -/

/-- When no row conflicts on the key, `upsert_listing` appends the
freshly inserted row (with `first_seen_at = last_seen_at = now`,
`is_active = true`) and returns the fresh id. -/
theorem upsert_listing_insert (cfg : FilterConfig) (db : DBState) (d : ListingData)
    (now newId pb : Nat) (src : SourceRow)
    (hinc : (should_include_listing cfg d).1 = true)
    (hsrc : get_source_by_code db.sources d.source_code = some src)
    (hfind : db.listings.find? (matchesKey src.id d.external_id) = none) :
    upsert_listing cfg db d now newId pb =
      .ok ({ db with
             listings := db.listings ++ [insertRow d src newId now]
             photos := (match d.photos with
                       | some (u :: us) => upsert_photos db.photos newId (u :: us) pb now
                       | _ => db.photos) }, some newId) := by
  unfold upsert_listing
  simp only [hinc, hsrc, hfind]
  simp

/-- When a row conflicts on the key, `upsert_listing` applies the
`DO UPDATE` clause to it and returns the existing id. -/
theorem upsert_listing_update (cfg : FilterConfig) (db : DBState) (d : ListingData)
    (now newId pb : Nat) (src : SourceRow) (r0 : ListingRow)
    (hinc : (should_include_listing cfg d).1 = true)
    (hsrc : get_source_by_code db.sources d.source_code = some src)
    (hfind : db.listings.find? (matchesKey src.id d.external_id) = some r0) :
    upsert_listing cfg db d now newId pb =
      .ok ({ db with
             listings := db.listings.map (fun r =>
               if matchesKey src.id d.external_id r then updateRow d now r else r)
             photos := (match d.photos with
                       | some (u :: us) => upsert_photos db.photos r0.id (u :: us) pb now
                       | _ => db.photos) }, some r0.id) := by
  unfold upsert_listing
  simp only [hinc, hsrc, hfind]
  simp

/-- Searching a list extended by a matching element finds that element
when nothing before it matches. -/
theorem find?_append_singleton (p : α → Bool) (l : List α) (x : α)
    (h : ∀ y ∈ l, p y = false) (hx : p x = true) :
    (l ++ [x]).find? p = some x := by
  induction l with
  | nil => simp [List.find?, hx]
  | cons a as ih =>
    have ha := h a (by simp)
    simp only [List.cons_append, List.find?_cons, ha]
    exact ih (fun y hy => h y (by simp [hy]))

/-- A guarded map is the identity on a list none of whose elements
satisfy the guard. -/
theorem map_ite_id_of_none (p : α → Bool) (u : α → α) (l : List α)
    (h : ∀ y ∈ l, p y = false) :
    l.map (fun r => if p r then u r else r) = l := by
  induction l with
  | nil => rfl
  | cons a as ih =>
    have ha := h a (by simp)
    have ih2 := ih (fun y hy => h y (by simp [hy]))
    simp [ha, ih2]

/-- Filtering a list none of whose elements pass yields the empty list. -/
theorem filter_eq_nil_of_none (p : α → Bool) (l : List α)
    (h : ∀ y ∈ l, p y = false) : l.filter p = [] := by
  induction l with
  | nil => rfl
  | cons a as ih =>
    have ha := h a (by simp)
    have ih2 := ih (fun y hy => h y (by simp [hy]))
    simp [List.filter_cons, ha, ih2]

/-- C1: for an admitted record observed twice under the same
(source_code, external_id) pair — first at `t1`, again at `t2` —
the single-statement upsert leaves exactly one row with that key; its
mutable fields (url, title, description, property_type, offer_type,
price, location_text, area_built_up, area_land) carry the second
observation's values, `first_seen_at` is still `t1`, `last_seen_at`
advanced to `t2`, `is_active` is true, and both calls returned the same
listing id (the id minted by the insert). -/
theorem upsert_twice_single_row (cfg : FilterConfig) (db : DBState) (d1 d2 : ListingData)
    (src : SourceRow) (t1 t2 id1 id2 pb1 pb2 : Nat) (eid : String)
    (h1 : (should_include_listing cfg d1).1 = true)
    (h2 : (should_include_listing cfg d2).1 = true)
    (hsrc : get_source_by_code db.sources d1.source_code = some src)
    (hcode : d2.source_code = d1.source_code)
    (he1 : d1.external_id = some eid)
    (he2 : d2.external_id = some eid)
    (hnone : ∀ r ∈ db.listings, matchesKey src.id (some eid) r = false) :
    ∃ db1 db2 : DBState,
      upsert_listing cfg db d1 t1 id1 pb1 = .ok (db1, some id1) ∧
      upsert_listing cfg db1 d2 t2 id2 pb2 = .ok (db2, some id1) ∧
      db2.listings.filter (matchesKey src.id (some eid)) =
        [{ id := id1, source_id := src.id, source_code := d1.source_code,
           source_name := src.name, external_id := some eid,
           url := d2.url.getD "", title := (d2.title.getD "").take 200,
           description := (d2.description.getD "").take 5000,
           property_type := property_type_map (d2.property_type.getD "Ostatní"),
           offer_type := offer_type_map (d2.offer_type.getD "Prodej"),
           price := d2.price, location_text := (d2.location_text.getD "").take 200,
           area_built_up := d2.area_built_up, area_land := d2.area_land,
           first_seen_at := t1, last_seen_at := t2, is_active := true }] := by
  have hkeyrow1 : matchesKey src.id (some eid) (insertRow d1 src id1 t1) = true := by
    simp [matchesKey, insertRow, he1]
  have hfind1 : db.listings.find? (matchesKey src.id d1.external_id) = none := by
    rw [he1]
    exact List.find?_eq_none.mpr (fun x hx => by simp [hnone x hx])
  have call1 := upsert_listing_insert cfg db d1 t1 id1 pb1 src h1 hsrc hfind1
  set db1 : DBState :=
    { db with
      listings := db.listings ++ [insertRow d1 src id1 t1]
      photos := (match d1.photos with
                 | some (u :: us) => upsert_photos db.photos id1 (u :: us) pb1 t1
                 | _ => db.photos) } with hdb1
  have hsrc2 : get_source_by_code db1.sources d2.source_code = some src := by
    rw [hcode]; exact hsrc
  have hfind2 : db1.listings.find? (matchesKey src.id d2.external_id) =
      some (insertRow d1 src id1 t1) := by
    rw [he2]
    exact find?_append_singleton _ _ _ hnone hkeyrow1
  have call2 := upsert_listing_update cfg db1 d2 t2 id2 pb2 src (insertRow d1 src id1 t1)
      h2 hsrc2 hfind2
  set db2 : DBState :=
    { db1 with
      listings := db1.listings.map (fun r =>
        if matchesKey src.id d2.external_id r then updateRow d2 t2 r else r)
      photos := (match d2.photos with
                 | some (u :: us) => upsert_photos db1.photos id1 (u :: us) pb2 t2
                 | _ => db1.photos) } with hdb2
  refine ⟨db1, db2, call1, ?_, ?_⟩
  · exact call2
  · have hmap : db1.listings.map (fun r =>
        if matchesKey src.id d2.external_id r then updateRow d2 t2 r else r)
        = db.listings ++ [updateRow d2 t2 (insertRow d1 src id1 t1)] := by
      show (db.listings ++ [insertRow d1 src id1 t1]).map _ = _
      rw [List.map_append, he2, map_ite_id_of_none _ _ _ hnone]
      simp [hkeyrow1]
    have hkeyupd : matchesKey src.id (some eid)
        (updateRow d2 t2 (insertRow d1 src id1 t1)) = true := by
      simp [matchesKey, updateRow, insertRow, he1]
    have hlist : db2.listings = db.listings ++ [updateRow d2 t2 (insertRow d1 src id1 t1)] := by
      rw [hdb2]; exact hmap
    rw [hlist, List.filter_append, filter_eq_nil_of_none _ _ hnone]
    simp only [List.nil_append, List.filter_cons, hkeyupd, if_true, List.filter_nil]
    congr 1
    simp [updateRow, insertRow, he1]

/-- C1 witness: a concrete seed plus re-observation of the pair
("PRODEJMETO", "X2") with a new price, in an initially empty table. -/
theorem upsert_twice_single_row_witness :
    ∃ db1 db2 : DBState,
      upsert_listing {} demo_db demo_obs1 10 100 500 = .ok (db1, some 100) ∧
      upsert_listing {} db1 demo_obs2 20 101 600 = .ok (db2, some 100) ∧
      db2.listings.filter (matchesKey demo_source.id (some "X2")) =
        [{ id := 100, source_id := demo_source.id, source_code := demo_obs1.source_code,
           source_name := demo_source.name, external_id := some "X2",
           url := demo_obs2.url.getD "", title := (demo_obs2.title.getD "").take 200,
           description := (demo_obs2.description.getD "").take 5000,
           property_type := property_type_map (demo_obs2.property_type.getD "Ostatní"),
           offer_type := offer_type_map (demo_obs2.offer_type.getD "Prodej"),
           price := demo_obs2.price, location_text := (demo_obs2.location_text.getD "").take 200,
           area_built_up := demo_obs2.area_built_up, area_land := demo_obs2.area_land,
           first_seen_at := 10, last_seen_at := 20, is_active := true }] :=
  upsert_twice_single_row {} demo_db demo_obs1 demo_obs2 demo_source
    10 20 100 101 500 600 "X2"
    (by decide) (by decide) (by decide) (by decide) (by decide) (by decide)
    (by intro r hr; simp [demo_db] at hr)

/- ## Theorems: photo replacement (C2) -/

/-- C2 counterexample: an admitted observation of an existing listing
that carries no photo list does NOT replace the stored photo set — the
`if "photos" in listing_data and listing_data["photos"]` guard skips
the photo synchronization, so the old photo row survives (the claim,
which asserts full replacement on every saved observation, would
require the stored set to become empty). -/
theorem upsert_keeps_old_photos_on_empty :
    (upsert_listing ({} : FilterConfig) demo_db_with_photo
        { source_code := "REMAX", external_id := some "X" }
        5 42 100).toOption.map
      (fun x => ((x.1.photos.filter (fun p => p.listing_id == 7)).length, x.2))
      = some (1, some 7) := by decide

/-- The photos a listing owns after `_upsert_photos` ran for it are
exactly the first twenty given urls, enumerated in order. -/
theorem upsert_photos_filter (photos : List PhotoRow) (lid : Nat) (urls : List String)
    (pb now : Nat) :
    (upsert_photos photos lid urls pb now).filter (fun p => p.listing_id == lid)
      = (urls.take 20).enum.map (fun iu =>
          { id := pb + iu.1, listing_id := lid, original_url := iu.2,
            order_index := iu.1, created_at := now : PhotoRow }) := by
  unfold upsert_photos
  rw [List.filter_append]
  have hkept : (photos.filter (fun p => !(p.listing_id == lid))).filter
      (fun p => p.listing_id == lid) = [] := by
    refine filter_eq_nil_of_none _ _ (fun y hy => ?_)
    have := List.of_mem_filter hy
    simpa using this
  have hins : ((urls.take 20).enum.map (fun iu =>
      { id := pb + iu.1, listing_id := lid, original_url := iu.2,
        order_index := iu.1, created_at := now : PhotoRow })).filter
      (fun p => p.listing_id == lid)
      = (urls.take 20).enum.map (fun iu =>
          { id := pb + iu.1, listing_id := lid, original_url := iu.2,
            order_index := iu.1, created_at := now : PhotoRow }) := by
    refine List.filter_eq_self.mpr (fun a ha => ?_)
    rcases List.mem_map.mp ha with ⟨iu, _, rfl⟩
    simp
  rw [hkept, hins, List.nil_append]

/-- C2 amended: on every listing observation saved through the gateway
that carries a NON-EMPTY photo list, the listing's photo set is fully
replaced — all existing photos deleted, then the new set inserted in
the given order — within a single transaction nested in the same
transaction as the upsert (modelled here as the atomicity of the one
state transition); afterwards the stored set has size
`N = min(len, 20) ≤ 20` and the `order_index` values cover exactly
`{0, …, N−1}` starting at 0. An observation carrying no photo list (or
an empty one) leaves the stored photo table completely untouched. -/
theorem upsert_replaces_photos (cfg : FilterConfig) (db : DBState) (d : ListingData)
    (now newId pb : Nat) (src : SourceRow)
    (hinc : (should_include_listing cfg d).1 = true)
    (hsrc : get_source_by_code db.sources d.source_code = some src) :
    (∀ (u : String) (us : List String), d.photos = some (u :: us) →
      ∃ (db' : DBState) (lid : Nat),
        upsert_listing cfg db d now newId pb = .ok (db', some lid) ∧
        db'.photos.filter (fun p => p.listing_id == lid)
          = ((u :: us).take 20).enum.map (fun iu =>
              { id := pb + iu.1, listing_id := lid, original_url := iu.2,
                order_index := iu.1, created_at := now : PhotoRow }) ∧
        (db'.photos.filter (fun p => p.listing_id == lid)).map (fun p => p.original_url)
          = (u :: us).take 20 ∧
        (db'.photos.filter (fun p => p.listing_id == lid)).map (fun p => p.order_index)
          = List.range (min 20 (u :: us).length) ∧
        (db'.photos.filter (fun p => p.listing_id == lid)).length ≤ 20) ∧
    ((d.photos = none ∨ d.photos = some []) →
      ∃ (db' : DBState) (lid : Nat),
        upsert_listing cfg db d now newId pb = .ok (db', some lid) ∧
        db'.photos = db.photos) := by
  constructor
  · intro u us hph
    have props : ∀ lid, ((upsert_photos db.photos lid (u :: us) pb now).filter
          (fun p => p.listing_id == lid)).map (fun p => p.original_url) = (u :: us).take 20 ∧
        ((upsert_photos db.photos lid (u :: us) pb now).filter
          (fun p => p.listing_id == lid)).map (fun p => p.order_index)
          = List.range (min 20 (u :: us).length) ∧
        ((upsert_photos db.photos lid (u :: us) pb now).filter
          (fun p => p.listing_id == lid)).length ≤ 20 := by
      intro lid
      rw [upsert_photos_filter]
      refine ⟨?_, ?_, ?_⟩
      · rw [List.map_map]
        have : ((fun p : PhotoRow => p.original_url) ∘ (fun iu : Nat × String =>
            { id := pb + iu.1, listing_id := lid, original_url := iu.2,
              order_index := iu.1, created_at := now : PhotoRow })) = Prod.snd := rfl
        rw [this, List.enum_map_snd]
      · rw [List.map_map]
        have : ((fun p : PhotoRow => p.order_index) ∘ (fun iu : Nat × String =>
            { id := pb + iu.1, listing_id := lid, original_url := iu.2,
              order_index := iu.1, created_at := now : PhotoRow })) = Prod.fst := rfl
        rw [this, List.enum_map_fst, List.length_take]
      · rw [List.length_map, List.enum_length, List.length_take]
        exact le_trans (Nat.min_le_left _ _) (le_refl 20)
    rcases hfind : db.listings.find? (matchesKey src.id d.external_id) with _ | r0
    · have call := upsert_listing_insert cfg db d now newId pb src hinc hsrc hfind
      refine ⟨_, newId, call, ?_, ?_, ?_, ?_⟩ <;>
        simp only [hph] <;>
        first
          | exact upsert_photos_filter db.photos newId (u :: us) pb now
          | exact (props newId).1
          | exact (props newId).2.1
          | exact (props newId).2.2
    · have call := upsert_listing_update cfg db d now newId pb src r0 hinc hsrc hfind
      refine ⟨_, r0.id, call, ?_, ?_, ?_, ?_⟩ <;>
        simp only [hph] <;>
        first
          | exact upsert_photos_filter db.photos r0.id (u :: us) pb now
          | exact (props r0.id).1
          | exact (props r0.id).2.1
          | exact (props r0.id).2.2
  · intro hempty
    rcases hfind : db.listings.find? (matchesKey src.id d.external_id) with _ | r0
    · have call := upsert_listing_insert cfg db d now newId pb src hinc hsrc hfind
      refine ⟨_, newId, call, ?_⟩
      rcases hempty with h | h <;> simp [h]
    · have call := upsert_listing_update cfg db d now newId pb src r0 hinc hsrc hfind
      refine ⟨_, r0.id, call, ?_⟩
      rcases hempty with h | h <;> simp [h]

/-- C2 witness: saving a fresh listing with three photos stores exactly
those three photos with order_index 0, 1, 2, while re-observing the
stored listing ("REMAX", "X") without a photo list leaves the photo
table untouched. -/
theorem upsert_replaces_photos_witness :
    (∃ (db' : DBState) (lid : Nat),
      upsert_listing {} demo_db demo_photo_obs 10 100 500 = .ok (db', some lid) ∧
      db'.photos.filter (fun p => p.listing_id == lid)
        = ((["a", "b", "c"] : List String).take 20).enum.map (fun iu =>
            { id := 500 + iu.1, listing_id := lid, original_url := iu.2,
              order_index := iu.1, created_at := 10 : PhotoRow }) ∧
      (db'.photos.filter (fun p => p.listing_id == lid)).map (fun p => p.original_url)
        = (["a", "b", "c"] : List String).take 20 ∧
      (db'.photos.filter (fun p => p.listing_id == lid)).map (fun p => p.order_index)
        = List.range (min 20 (["a", "b", "c"] : List String).length) ∧
      (db'.photos.filter (fun p => p.listing_id == lid)).length ≤ 20) ∧
    (∃ (db' : DBState) (lid : Nat),
      upsert_listing {} demo_db_with_photo demo_nophoto_obs 5 42 100 = .ok (db', some lid) ∧
      db'.photos = demo_db_with_photo.photos) :=
  ⟨(upsert_replaces_photos {} demo_db demo_photo_obs 10 100 500 demo_source
      (by decide) (by decide)).1 "a" ["b", "c"] rfl,
   (upsert_replaces_photos {} demo_db_with_photo demo_nophoto_obs 5 42 100
      { id := 1, code := "REMAX", name := "Remax" }
      (by decide) (by decide)).2 (Or.inl rfl)⟩

/- ## HTTP retry wrapper (`core/http_utils.py`) -/

/- ## Theorems: retry classification (C3) -/

/-- C3 (code-bug evidence): the claim — matching the code's own inline
comment — says an HTTP status error outside {429, 503, 5xx} propagates
immediately without any retry, but `retry_if_exception_type` matches
the whole `httpx.HTTPStatusError` class: a call failing with status 404
on every attempt is retried and only rethrown after all 3 attempts.
The backoff schedule itself is as specified: 2s, 4s, 8s, capped at 10s. -/
theorem http_retry_retries_404 :
    retry_on_exception (.HTTPStatusError 404) = true ∧
    http_retry_call (fun _ => (.error (.HTTPStatusError 404) : Except HttpxError Nat))
      = (.error (.HTTPStatusError 404), 3) ∧
    retry_on_exception (.OtherError "ValueError") = false ∧
    http_retry_call (fun _ => (.error (.OtherError "ValueError") : Except HttpxError Nat))
      = (.error (.OtherError "ValueError"), 1) ∧
    wait_exponential 1 2 10 1 = 2 ∧
    wait_exponential 1 2 10 2 = 4 ∧
    wait_exponential 1 2 10 3 = 8 ∧
    wait_exponential 1 2 10 4 = 10 := by
  refine ⟨rfl, rfl, rfl, rfl, ?_, ?_, ?_, ?_⟩ <;> decide

/- ## Theorems: runner aggregation (C4) -/

/- ## Theorems: runner aggregation (C4) -/

/-- The loop total equals the sum of the successful adapters' counts
and the logged failures are exactly the raising adapters' names. -/
theorem scrape_loop_spec (results : List (String × Except String Nat)) :
    scrape_loop results
      = ((results.filterMap (fun r => r.2.toOption)).sum,
         results.filterMap (fun r =>
           match r.2 with | .error _ => some r.1 | .ok _ => none)) := by
  suffices h : ∀ t0 fs0, results.foldl
      (fun acc nr =>
        match nr.2 with
        | .error _ => (acc.1, acc.2 ++ [nr.1])
        | .ok n => (acc.1 + n, acc.2))
      (t0, fs0)
      = (t0 + (results.filterMap (fun r => r.2.toOption)).sum,
         fs0 ++ results.filterMap (fun r =>
           match r.2 with | .error _ => some r.1 | .ok _ => none)) by
    have := h 0 []
    simpa [scrape_loop] using this
  induction results with
  | nil => intro t0 fs0; simp
  | cons a as ih =>
    intro t0 fs0
    rcases a with ⟨name, r⟩
    rcases r with e | n
    · simp [List.foldl_cons, List.filterMap_cons, Except.toOption, ih, List.append_assoc]
    · simp [List.foldl_cons, List.filterMap_cons, Except.toOption, ih, Nat.add_assoc]

/-- C4: when at least one adapter ran, whatever exceptions individual
adapters raised, the runner logs each raising adapter by name, keeps
aggregating the others, and finalizes the job as Succeeded with
`listings_found` equal to the sum of the counts returned by the
adapters that did not raise; the job is finalized as Failed — carrying
the exception message — exactly when the runner body itself throws. -/
theorem runner_adapter_failure_isolated (results : List (String × Except String Nat))
    (msg : String) (hne : results ≠ []) :
    run_scrape_job (.ok results)
      = ({ status := "Succeeded", progress := some 100,
           listings_found := some ((results.filterMap (fun r => r.2.toOption)).sum),
           error_message := none },
         results.filterMap (fun r =>
           match r.2 with | .error _ => some r.1 | .ok _ => none)) ∧
    run_scrape_job (.error msg)
      = ({ status := "Failed", progress := none, listings_found := none,
           error_message := some msg }, []) := by
  constructor
  · rcases results with _ | ⟨a, as⟩
    · exact absurd rfl hne
    · show run_scrape_job (.ok (a :: as)) = _
      simp [run_scrape_job, scrape_loop_spec]
  · rfl

/-- C4 witness: two adapters, the second raising; the job is Succeeded
with the first adapter's count and the second adapter's name logged,
while a runner-level exception alone yields Failed with its message. -/
theorem runner_adapter_failure_isolated_witness :
    run_scrape_job (.ok [("REMAX", .ok 5), ("MMR", .error "boom")])
      = ({ status := "Succeeded", progress := some 100,
           listings_found := some (([("REMAX", (.ok 5 : Except String Nat)),
             ("MMR", .error "boom")].filterMap (fun r => r.2.toOption)).sum),
           error_message := none },
         [("REMAX", (.ok 5 : Except String Nat)), ("MMR", .error "boom")].filterMap
           (fun r => match r.2 with | .error _ => some r.1 | .ok _ => none)) ∧
    run_scrape_job (.error "db down")
      = ({ status := "Failed", progress := none, listings_found := none,
           error_message := some "db down" }, []) :=
  runner_adapter_failure_isolated [("REMAX", .ok 5), ("MMR", .error "boom")] "db down"
    (by simp)

/- ## Field enrichment on ingest (C6) -/

/- ## Theorems: field enrichment (C6) -/

/-- The modelled enrichment reproduces every assertion of the
repository's `test_enrichment.py`. -/
theorem enrich_matches_repo_tests :
    (enrich_listing_fields enrich_case_1).disposition = some "4+KK" ∧
    (enrich_listing_fields enrich_case_1).rooms = some 4 ∧
    (enrich_listing_fields enrich_case_2).condition = some "Po rekonstrukci" ∧
    (enrich_listing_fields enrich_case_2).construction_type = some "Cihla" ∧
    (enrich_listing_fields enrich_case_3).condition = some "Novostavba" ∧
    (enrich_listing_fields enrich_case_3).disposition = some "3+KK" ∧
    (enrich_listing_fields enrich_case_4).disposition = some "5+1" ∧
    (enrich_listing_fields enrich_case_4).condition = some "Dobrý stav" ∧
    (enrich_listing_fields enrich_case_5).condition = some "Před rekonstrukcí" ∧
    (enrich_listing_fields enrich_case_5).construction_type = some "Dřevo" ∧
    (enrich_listing_fields enrich_case_6).construction_type = some "Panel" ∧
    (enrich_listing_fields enrich_case_7).disposition = none ∧
    (enrich_listing_fields enrich_case_7).rooms = none := by
  refine ⟨?_, ?_, ?_, ?_, ?_, ?_, ?_, ?_, ?_, ?_, ?_, ?_, ?_⟩ <;> decide

/-- Taking while a predicate holds stops exactly at the first failing
element. -/
theorem takeWhile_append_stop (p : α → Bool) (l : List α) (x : α) (r : List α)
    (hl : ∀ c ∈ l, p c = true) (hx : p x = false) :
    (l ++ x :: r).takeWhile p = l := by
  induction l with
  | nil => simp [List.takeWhile, hx]
  | cons a as ih =>
    have ha := hl a (by simp)
    have ih2 := ih (fun c hc => hl c (by simp [hc]))
    simp [List.takeWhile, ha, ih2]

/-- A digit run glued to "+KK" or "+1" has the disposition shape, and
its numeric prefix is the run's value. -/
theorem shape_of_append (ds tail : List Char) (hne : ds.isEmpty = false)
    (hall : ∀ c ∈ ds, c.isDigit = true)
    (htail : tail = ['+', 'K', 'K'] ∨ tail = ['+', '1']) :
    disposition_shape (String.mk (ds ++ tail)) = true ∧
    num_prefix_nat (String.mk (ds ++ tail)) = some (natOfDigits ds) := by
  have hplus : ('+' : Char).isDigit = false := by decide
  have htw : (ds ++ tail).takeWhile Char.isDigit = ds := by
    rcases htail with h | h <;> subst h <;> exact takeWhile_append_stop _ _ _ _ hall hplus
  have hdrop : (ds ++ tail).drop ds.length = tail := List.drop_left ds tail
  constructor
  · unfold disposition_shape
    show (!((ds ++ tail).takeWhile Char.isDigit).isEmpty &&
      ((ds ++ tail).drop ((ds ++ tail).takeWhile Char.isDigit).length == ['+', 'K', 'K'] ||
       (ds ++ tail).drop ((ds ++ tail).takeWhile Char.isDigit).length == ['+', '1'])) = true
    rw [htw, hdrop, hne]
    rcases htail with h | h <;> subst h <;> simp
  · unfold num_prefix_nat
    show (if ((ds ++ tail).takeWhile Char.isDigit).isEmpty
          then none else some (natOfDigits ((ds ++ tail).takeWhile Char.isDigit))) = _
    rw [htw, hne]
    simp

/-- Any match produced at one position has the disposition shape. -/
theorem matchDispAt_shape (cs : List Char) (v : String) (n : Nat)
    (h : matchDispAt cs = some (v, n)) :
    disposition_shape v = true ∧ num_prefix_nat v = some n := by
  unfold matchDispAt at h
  cases hE : (cs.takeWhile Char.isDigit).isEmpty with
  | true => simp [hE] at h
  | false =>
    have hall : ∀ c ∈ cs.takeWhile Char.isDigit, c.isDigit = true :=
      fun c hc => List.mem_takeWhile_imp hc
    by_cases h1 : ((cs.drop (cs.takeWhile Char.isDigit).length).take 3
        == ['+', 'k', 'k']) = true
    · simp only [hE, h1, Bool.false_eq_true, if_false, if_true,
        Option.some.injEq, Prod.mk.injEq] at h
      obtain ⟨rfl, rfl⟩ := h
      exact shape_of_append _ _ hE hall (Or.inl rfl)
    · by_cases h2 : ((cs.drop (cs.takeWhile Char.isDigit).length).take 2
          == ['+', '1']) = true
      · simp only [hE, h1, h2, Bool.false_eq_true, if_false, if_true,
          Option.some.injEq, Prod.mk.injEq] at h
        obtain ⟨rfl, rfl⟩ := h
        exact shape_of_append _ _ hE hall (Or.inr rfl)
      · simp [hE, h1, h2] at h

/-- Any found disposition has the regex shape and determines `rooms`
as its numeric prefix. -/
theorem find_disposition_shape (cs : List Char) (v : String) (n : Nat)
    (h : find_disposition cs = some (v, n)) :
    disposition_shape v = true ∧ num_prefix_nat v = some n := by
  induction cs with
  | nil => simp [find_disposition] at h
  | cons c rest ih =>
    unfold find_disposition at h
    cases hm : matchDispAt (c :: rest) with
    | some r =>
      rw [hm] at h
      cases h
      exact matchDispAt_shape _ _ _ hm
    | none =>
      rw [hm] at h
      exact ih h

/-- Condition detection only ever yields the four canonical values. -/
theorem detect_condition_cases (t : String) :
    detect_condition t = none ∨ detect_condition t ∈
      [some "Novostavba", some "Po rekonstrukci", some "Před rekonstrukcí", some "Dobrý stav"] := by
  unfold detect_condition
  split_ifs <;> simp

/-- Construction detection only ever yields the three canonical values. -/
theorem detect_construction_cases (t : String) :
    detect_construction t = none ∨ detect_construction t ∈
      [some "Cihla", some "Panel", some "Dřevo"] := by
  unfold detect_construction
  split_ifs <;> simp

/-- C6: for every record, the ingest enrichment either leaves each of
disposition / rooms / condition / construction_type exactly as the
adapter provided it (never overwriting a set value) or — only when the
field was unset — fills it from title + description: a filled
disposition matches the regex `\d+\+(?:kk|1)` (upper-cased), filled
rooms are the numeric prefix of the disposition, a filled condition is
one of {Novostavba, Po rekonstrukci, Před rekonstrukcí, Dobrý stav},
and a filled construction type is one of {Cihla, Panel, Dřevo}. -/
theorem enrich_fills_unset_fields (d : ListingData) :
    ((enrich_listing_fields d).disposition = d.disposition ∨
      (d.disposition = none ∧ ∃ v, (enrich_listing_fields d).disposition = some v ∧
        disposition_shape v = true)) ∧
    ((enrich_listing_fields d).rooms = d.rooms ∨
      (d.rooms = none ∧ ∃ v, (enrich_listing_fields d).disposition = some v ∧
        (enrich_listing_fields d).rooms = num_prefix_nat v)) ∧
    ((enrich_listing_fields d).condition = d.condition ∨
      (d.condition = none ∧ (enrich_listing_fields d).condition ∈
        [some "Novostavba", some "Po rekonstrukci", some "Před rekonstrukcí", some "Dobrý stav"])) ∧
    ((enrich_listing_fields d).construction_type = d.construction_type ∨
      (d.construction_type = none ∧ (enrich_listing_fields d).construction_type ∈
        [some "Cihla", some "Panel", some "Dřevo"])) := by
  refine ⟨?_, ?_, ?_, ?_⟩
  · rcases hd : d.disposition with _ | v
    · rcases hf : find_disposition
          (pyLower (d.title.getD "" ++ " " ++ d.description.getD "")).data with _ | ⟨v, n⟩
      · left; simp [enrich_listing_fields, hd, hf]
      · right
        refine ⟨rfl, v, ?_, (find_disposition_shape _ v n hf).1⟩
        simp [enrich_listing_fields, hd, hf]
    · left; simp [enrich_listing_fields, hd]
  · rcases hr : d.rooms with _ | r
    · rcases hd : d.disposition with _ | v
      · rcases hf : find_disposition
            (pyLower (d.title.getD "" ++ " " ++ d.description.getD "")).data with _ | ⟨v, n⟩
        · left; simp [enrich_listing_fields, hd, hr, hf]
        · right
          refine ⟨rfl, v, ?_, ?_⟩ <;> simp [enrich_listing_fields, hd, hr, hf]
      · right
        refine ⟨rfl, v, ?_, ?_⟩ <;> simp [enrich_listing_fields, hd, hr]
    · left; simp [enrich_listing_fields, hr]
  · rcases hc : d.condition with _ | v
    · rcases detect_condition_cases
          (pyLower (d.title.getD "" ++ " " ++ d.description.getD "")) with h | h
      · left; simp [enrich_listing_fields, hc, h]
      · right
        refine ⟨rfl, ?_⟩
        simpa [enrich_listing_fields, hc] using h
    · left; simp [enrich_listing_fields, hc]
  · rcases hk : d.construction_type with _ | v
    · rcases detect_construction_cases
          (pyLower (d.title.getD "" ++ " " ++ d.description.getD "")) with h | h
      · left; simp [enrich_listing_fields, hk, h]
      · right
        refine ⟨rfl, ?_⟩
        simpa [enrich_listing_fields, hk] using h
    · left; simp [enrich_listing_fields, hk]
